import Mathlib

/-!
Shallow embedding of the KMF document-management service, translated from
src/routes/documents.ts (zod validation schemas, the express route handlers
for document creation, content read/update, entitlement update and document
listing) and src/data/templates.ts (the static template table).
-/

namespace KMF

/-- JSON values as produced by JSON.parse on a request body field. -/
inductive JValue where
  | jnull
  | jbool (b : Bool)
  | jnum (n : Int)
  | jstr (s : String)
  | jarr (items : List JValue)
  | jobj (fields : List (String × JValue))

/-- Field lookup on a JSON object. JSON.parse keeps the last occurrence of a
duplicated key, so the reversed list is searched. -/
def lookupField (fields : List (String × JValue)) (name : String) : Option JValue :=
  (fields.reverse.find? (fun kv => kv.1 == name)).map (·.2)

/-- Semantics of z.string(): accepts exactly JSON strings. -/
def asString : JValue → Option String
  | .jstr s => some s
  | _ => none

/-- Semantics of z.array(z.string()): accepts exactly arrays of strings. -/
def asStringList : JValue → Option (List String)
  | .jarr items => items.mapM asString
  | _ => none

/-- Semantics of an optional z.array(z.string()) object field: an absent field
parses to none, a present field must be an array of strings. -/
def parseOptStringList (fields : List (String × JValue)) (name : String) :
    Option (Option (List String)) :=
  match lookupField fields name with
  | none => some none
  | some v => (asStringList v).map some

/-- Semantics of an optional z.string() object field. -/
def parseOptString (fields : List (String × JValue)) (name : String) :
    Option (Option String) :=
  match lookupField fields name with
  | none => some none
  | some v => (asString v).map some

/-- The DocumentAssociations shape from src/types.ts: six optional lists of
identifiers. -/
structure DocumentAssociations where
  locationGLNList : Option (List String) := none
  productList : Option (List String) := none
  organizationList : Option (List String) := none
  epcList : Option (List String) := none
  eventIDList : Option (List String) := none
  transactionIDList : Option (List String) := none
deriving Repr, DecidableEq

/-- The object-shape part of documentAssociationsSchema: each of the six
fields is optional and, when present, must be an array of strings; unknown
keys are stripped (zod default). -/
def parseAssociationsShape : JValue → Option DocumentAssociations
  | .jobj fields => do
      let locs ← parseOptStringList fields "locationGLNList"
      let prods ← parseOptStringList fields "productList"
      let orgs ← parseOptStringList fields "organizationList"
      let epcs ← parseOptStringList fields "epcList"
      let events ← parseOptStringList fields "eventIDList"
      let txs ← parseOptStringList fields "transactionIDList"
      pure { locationGLNList := locs, productList := prods, organizationList := orgs,
             epcList := epcs, eventIDList := events, transactionIDList := txs }
  | _ => none

/-- Truthiness test used inside the refine callback:
list && list.length > 0. -/
def isNonEmptyList : Option (List String) → Bool
  | some xs => xs.length > 0
  | none => false

/-- The filtered traceable-element count from the refine callback of
documentAssociationsSchema. -/
def traceableElementsCount (d : DocumentAssociations) : Nat :=
  ([d.locationGLNList, d.productList, d.organizationList, d.epcList].filter
    isNonEmptyList).length

/-- The refine predicate of documentAssociationsSchema:
traceableElements.length <= 1. -/
def refineSingleTraceable (d : DocumentAssociations) : Bool :=
  traceableElementsCount d ≤ 1

/-- documentAssociationsSchema.parse: shape validation followed by the
single-traceable-element refine; none models a thrown ZodError. -/
def documentAssociationsSchema (v : JValue) : Option DocumentAssociations :=
  match parseAssociationsShape v with
  | some d => if refineSingleTraceable d then some d else none
  | none => none

/-- One entry of customProperties: name, a string-or-number value, and an
optional format tag drawn from the five recognized values. -/
structure CustomProperty where
  name : String
  value : String ⊕ Int
  format : Option String := none
deriving Repr, DecidableEq

/-- The five recognized format tags of customPropertySchema. -/
def customPropertyFormats : List String :=
  ["date", "date-time", "gln", "gtin", "uri"]

/-- customPropertySchema.parse on one JSON value. -/
def parseCustomProperty : JValue → Option CustomProperty
  | .jobj fields => do
      let n ← (lookupField fields "name").bind asString
      let v ← match lookupField fields "value" with
        | some (.jstr s) => some (Sum.inl s)
        | some (.jnum n) => some (Sum.inr n)
        | _ => none
      let f ← match lookupField fields "format" with
        | none => some none
        | some fv =>
            match asString fv with
            | some s => if customPropertyFormats.contains s then some (some s) else none
            | none => none
      pure { name := n, value := v, format := f }
  | _ => none

/-- Result of a successful documentPropertiesSchema.parse: exactly the
twelve declared fields; unknown input keys are stripped (zod default), so
they do not appear here. -/
structure DocumentProperties where
  documentType : String
  documentTitle : String
  issueDate : Option String := none
  expiryDate : Option String := none
  tagList : Option (List String) := none
  customProperties : Option (List CustomProperty) := none
  locationGLNList : Option (List String) := none
  productList : Option (List String) := none
  organizationList : Option (List String) := none
  epcList : Option (List String) := none
  eventIDList : Option (List String) := none
  transactionIDList : Option (List String) := none
deriving Repr, DecidableEq

/-- Semantics of the optional customProperties array field. -/
def parseOptCustomProps (fields : List (String × JValue)) :
    Option (Option (List CustomProperty)) :=
  match lookupField fields "customProperties" with
  | none => some none
  | some (.jarr items) => (items.mapM parseCustomProperty).map some
  | some _ => none

/-- documentPropertiesSchema.parse: documentType and documentTitle are
required strings, the remaining ten fields optional; none models a thrown
ZodError. -/
def documentPropertiesSchema : JValue → Option DocumentProperties
  | .jobj fields => do
      let dtype ← (lookupField fields "documentType").bind asString
      let dtitle ← (lookupField fields "documentTitle").bind asString
      let issue ← parseOptString fields "issueDate"
      let expiry ← parseOptString fields "expiryDate"
      let tags ← parseOptStringList fields "tagList"
      let customs ← parseOptCustomProps fields
      let locs ← parseOptStringList fields "locationGLNList"
      let prods ← parseOptStringList fields "productList"
      let orgs ← parseOptStringList fields "organizationList"
      let epcs ← parseOptStringList fields "epcList"
      let events ← parseOptStringList fields "eventIDList"
      let txs ← parseOptStringList fields "transactionIDList"
      pure { documentType := dtype, documentTitle := dtitle, issueDate := issue,
             expiryDate := expiry, tagList := tags, customProperties := customs,
             locationGLNList := locs, productList := prods, organizationList := orgs,
             epcList := epcs, eventIDList := events, transactionIDList := txs }
  | _ => none

/-- The JavaScript test (prop in properties) evaluated on the object
returned by documentPropertiesSchema.parse: the two required fields are
always own keys, an optional field is an own key exactly when it was
present in the input, and every other name is never a key. -/
def propertyHasKey (p : DocumentProperties) (name : String) : Bool :=
  if name == "documentType" then true
  else if name == "documentTitle" then true
  else if name == "issueDate" then p.issueDate.isSome
  else if name == "expiryDate" then p.expiryDate.isSome
  else if name == "tagList" then p.tagList.isSome
  else if name == "customProperties" then p.customProperties.isSome
  else if name == "locationGLNList" then p.locationGLNList.isSome
  else if name == "productList" then p.productList.isSome
  else if name == "organizationList" then p.organizationList.isSome
  else if name == "epcList" then p.epcList.isSome
  else if name == "eventIDList" then p.eventIDList.isSome
  else if name == "transactionIDList" then p.transactionIDList.isSome
  else false

/-- A per-document-type template from src/data/templates.ts. -/
structure DocumentTemplate where
  type : String
  requiredProperties : List String
  allowedFileTypes : List String
deriving Repr, DecidableEq

/-- The Generic Document template from src/data/templates.ts. -/
def genericDocumentTemplate : DocumentTemplate :=
  { type := "Generic Document",
    requiredProperties := ["title", "description"],
    allowedFileTypes := ["application/pdf", "text/plain", "image/png",
                         "image/jpeg", "image/gif"] }

/-- The Generic Certificate template from src/data/templates.ts. -/
def genericCertificateTemplate : DocumentTemplate :=
  { type := "Generic Certificate",
    requiredProperties := ["title", "issuer", "validFrom", "validTo"],
    allowedFileTypes := ["application/pdf", "image/png", "image/jpeg"] }

/-- The GAA BAP Certificate template from src/data/templates.ts. -/
def gaaBapCertificateTemplate : DocumentTemplate :=
  { type := "GAA BAP Certificate",
    requiredProperties := ["certificateNumber", "facility", "issuer",
                           "validFrom", "validTo", "auditDate"],
    allowedFileTypes := ["application/pdf"] }

/-- The static template table from src/data/templates.ts. -/
def documentTemplates : List (String × DocumentTemplate) :=
  [("Generic Document", genericDocumentTemplate),
   ("Generic Certificate", genericCertificateTemplate),
   ("GAA BAP Certificate", gaaBapCertificateTemplate)]

/-- Indexing documentTemplates[documentType]: undefined becomes none. -/
def lookupTemplate (documentType : String) : Option DocumentTemplate :=
  (documentTemplates.find? (fun kv => kv.1 == documentType)).map (·.2)

/-- The missing-required-properties computation of the creation route:
the filter over template.requiredProperties keeping each prop for which
(prop in properties) is false. -/
def missingProperties (template : DocumentTemplate) (properties : DocumentProperties) :
    List String :=
  template.requiredProperties.filter (fun prop => ! propertyHasKey properties prop)

/-- A document entitlement record: mode is private or linked (enforced by
the schema), entitledOrgIds optional. -/
structure DocumentEntitlement where
  mode : String
  entitledOrgIds : Option (List String) := none
deriving Repr, DecidableEq

/-- documentEntitlementSchema.parse: mode must be one of the two enum
values, entitledOrgIds an optional array of strings. -/
def documentEntitlementSchema : JValue → Option DocumentEntitlement
  | .jobj fields => do
      let m ← (lookupField fields "mode").bind asString
      if m == "private" || m == "linked" then
        let orgs ← parseOptStringList fields "entitledOrgIds"
        pure { mode := m, entitledOrgIds := orgs }
      else
        none
  | _ => none

/-- The user object attached to every request by the authenticate stub. -/
structure AuthUser where
  id : String
  organizationId : String
  role : String
deriving Repr, DecidableEq

/-- Splitting of a character list at every space, as the JavaScript
String.split with a single-space separator does. -/
def splitCharsAtSpace : List Char → List (List Char)
  | [] => [[]]
  | c :: rest =>
      let r := splitCharsAtSpace rest
      if c = ' ' then [] :: r
      else
        match r with
        | [] => [[c]]
        | w :: ws => (c :: w) :: ws

/-- The JavaScript expression authHeader.split(sep) with sep a single
space. -/
def jsSplitSpace (s : String) : List String :=
  (splitCharsAtSpace s.toList).map (fun cs => String.mk cs)

/-- The authenticate middleware: 401 when the Authorization header is
absent, 401 when the token after the first space is absent or empty (both
are falsy), and otherwise the hard-coded simulated user regardless of the
token text. -/
def authenticate (authHeader : Option String) : Except String AuthUser :=
  match authHeader with
  | none => .error "Authorization header is missing"
  | some h =>
      match (jsSplitSpace h).get? 1 with
      | none => .error "Token is missing"
      | some token =>
          if token = "" then .error "Token is missing"
          else .ok { id := "user-id", organizationId := "org-id", role := "user" }

/-- Outcome of the authorize(roles) middleware on an authenticated
request. -/
inductive AuthzResult where
  | proceed
  | accessDenied
deriving Repr, DecidableEq

/-- The authorize middleware: 403 Access denied when the role of the
requesting user is not in the roles list, otherwise the request
proceeds. -/
def authorize (roles : List String) (user : AuthUser) : AuthzResult :=
  if roles.contains user.role then .proceed else .accessDenied

/-- An uploaded multipart file as seen by the route handlers; only the
MIME type takes part in any decision. -/
structure UploadedFile where
  mimetype : String
deriving Repr, DecidableEq

/-- A persisted Document row. The id column is generated by the database
and is carried by the store, not by the row value. -/
structure DocumentRecord where
  type : String
  properties : DocumentProperties
  contentFile : Option UploadedFile
  associations : DocumentAssociations
  entitlement : DocumentEntitlement
  version : Nat
  createdBy : String
  organizationId : String
deriving Repr, DecidableEq

/-- A persisted Transaction row (correlationId and status; the timestamp
takes part in no decision). -/
structure TransactionRecord where
  correlationId : String
  status : String
deriving Repr, DecidableEq

/-- A multipart text field of the creation request: absent, present but
not parseable as JSON (JSON.parse throws SyntaxError), or parsed. -/
inductive RawField where
  | absent
  | malformed
  | parsed (v : JValue)

/-- The text fields of a POST /documents request body. -/
structure RequestBody where
  properties : RawField
  entitlement : RawField

/-- Reasons for a 400 response from the creation route. -/
inductive BadRequest where
  | schemaViolation
  | invalidDocumentType
  | missingRequiredProperties (names : List String)
deriving Repr, DecidableEq

/-- Response of the POST /documents handler body. -/
inductive PostResponse where
  | created (doc : DocumentRecord)
  | badRequest (info : BadRequest)
  | unsupportedMediaType (allowedTypes : List String)
  | serverError
deriving Repr, DecidableEq

/-- What one run of the creation handler produced: the HTTP response, the
Document rows persisted during the run, and the Transaction rows persisted
during the run. -/
structure PostOutcome where
  response : PostResponse
  docs : List DocumentRecord
  txns : List TransactionRecord
deriving Repr, DecidableEq

/-- The associations object assembled by the creation route from the six
list fields of the parsed properties. -/
def associationsOfProperties (p : DocumentProperties) : DocumentAssociations :=
  { locationGLNList := p.locationGLNList, productList := p.productList,
    organizationList := p.organizationList, epcList := p.epcList,
    eventIDList := p.eventIDList, transactionIDList := p.transactionIDList }

/-- The Document row handed to DocumentModel.create by the creation route:
createdBy and organizationId are the string literals from the source, and
version takes the column default 1. -/
def mkDocument (properties : DocumentProperties) (contentFile : Option UploadedFile)
    (entitlement : DocumentEntitlement) : DocumentRecord :=
  { type := properties.documentType, properties := properties,
    contentFile := contentFile,
    associations := associationsOfProperties properties,
    entitlement := entitlement, version := 1,
    createdBy := "user-id", organizationId := "org-id" }

/-- File-type check and persistence tail of the creation handler: a
present file whose MIME type is not in template.allowedFileTypes yields
415 before persistence; otherwise the Document row and one completed
Transaction row are persisted and 201 returned. -/
def postDocumentsTail (template : DocumentTemplate)
    (properties : DocumentProperties) (contentFile : Option UploadedFile)
    (entitlement : DocumentEntitlement) (txnId : String) : PostOutcome :=
  match contentFile with
  | some f =>
      if ! template.allowedFileTypes.contains f.mimetype then
        { response := .unsupportedMediaType template.allowedFileTypes,
          docs := [], txns := [] }
      else
        let doc := mkDocument properties contentFile entitlement
        { response := .created doc, docs := [doc],
          txns := [{ correlationId := txnId, status := "completed" }] }
  | none =>
      let doc := mkDocument properties contentFile entitlement
      { response := .created doc, docs := [doc],
        txns := [{ correlationId := txnId, status := "completed" }] }

/-- The POST /documents handler body, after authenticate and authorize.
txnId stands for the crypto.randomUUID() correlation id of whichever
Transaction row the run creates. Stage order follows the source: parse
properties JSON, validate with documentPropertiesSchema, look up the
template, compute missingProperties, parse the optional entitlement,
check the file MIME type, then persist the Document and a completed
Transaction. A thrown ZodError yields 400 with no Transaction row; any
other thrown error yields 500 after persisting a failed Transaction. -/
def postDocuments (body : RequestBody) (contentFile : Option UploadedFile)
    (txnId : String) : PostOutcome :=
  match body.properties with
  | .absent => { response := .serverError, docs := [],
                 txns := [{ correlationId := txnId, status := "failed" }] }
  | .malformed => { response := .serverError, docs := [],
                    txns := [{ correlationId := txnId, status := "failed" }] }
  | .parsed propertiesJson =>
    match documentPropertiesSchema propertiesJson with
    | none => { response := .badRequest .schemaViolation, docs := [], txns := [] }
    | some properties =>
      match lookupTemplate properties.documentType with
      | none => { response := .badRequest .invalidDocumentType, docs := [], txns := [] }
      | some template =>
        let missing := missingProperties template properties
        if missing.length > 0 then
          { response := .badRequest (.missingRequiredProperties missing),
            docs := [], txns := [] }
        else
          match body.entitlement with
          | .malformed => { response := .serverError, docs := [],
                            txns := [{ correlationId := txnId, status := "failed" }] }
          | .absent =>
              postDocumentsTail template properties contentFile
                { mode := "private" } txnId
          | .parsed entitlementJson =>
            match documentEntitlementSchema entitlementJson with
            | none => { response := .badRequest .schemaViolation, docs := [], txns := [] }
            | some entitlement =>
                postDocumentsTail template properties contentFile
                  entitlement txnId

/-- Responses of the whole POST /documents route, middleware included. -/
inductive RouteResponse where
  | unauthorized (message : String)
  | forbidden
  | handled (r : PostResponse)
deriving Repr, DecidableEq

/-- Outcome of the whole POST /documents route, middleware included. -/
structure RouteOutcome where
  response : RouteResponse
  docs : List DocumentRecord
  txns : List TransactionRecord
deriving Repr, DecidableEq

/-- The full POST /documents route: authenticate, then
authorize(admin, user), then the handler body. -/
def postDocumentsRoute (authHeader : Option String) (body : RequestBody)
    (contentFile : Option UploadedFile) (txnId : String) : RouteOutcome :=
  match authenticate authHeader with
  | .error msg => { response := .unauthorized msg, docs := [], txns := [] }
  | .ok user =>
    match authorize ["admin", "user"] user with
    | .accessDenied => { response := .forbidden, docs := [], txns := [] }
    | .proceed =>
        let outcome := postDocuments body contentFile txnId
        { response := .handled outcome.response, docs := outcome.docs,
          txns := outcome.txns }

/-- The database of Document rows, keyed by id. -/
abbrev DocumentStore := List (String × DocumentRecord)

/-- DocumentModel.findByPk. -/
def findByPk (db : DocumentStore) (docId : String) : Option DocumentRecord :=
  (List.find? (fun kv => kv.1 == docId) db).map (·.2)

/-- Replacement of one row after document.save(). -/
def storeUpdate (db : DocumentStore) (docId : String) (doc : DocumentRecord) :
    DocumentStore :=
  List.map (fun kv => if kv.1 == docId then (kv.1, doc) else kv) db

/-- Response of GET /documents/:docId/content. -/
inductive ContentResponse where
  | notFound
  | ok (contentFile : Option UploadedFile)
deriving Repr, DecidableEq

/-- The GET /documents/:docId/content handler: look the document up by id
and return its contentFile. The handler reads no requester identity and
consults neither entitlement nor associations; every authenticated
requester receives the content. -/
def getDocumentContent (db : DocumentStore) (docId : String) : ContentResponse :=
  match findByPk db docId with
  | none => .notFound
  | some doc => .ok doc.contentFile

/-- Response of PUT /documents/:docId/content. -/
inductive UpdateContentResponse where
  | noFileUploaded
  | notFound
  | ok
deriving Repr, DecidableEq

/-- The PUT /documents/:docId/content handler: require a file, look the
document up, overwrite contentFile and save. No other column is touched;
in particular version is left as it was. -/
def putDocumentContent (db : DocumentStore) (docId : String)
    (file : Option UploadedFile) : UpdateContentResponse × DocumentStore :=
  match file with
  | none => (.noFileUploaded, db)
  | some f =>
    match findByPk db docId with
    | none => (.notFound, db)
    | some doc =>
        let updated := { doc with contentFile := some f }
        (.ok, storeUpdate db docId updated)

/-- Response of PUT /documents/:docId/entitlement. -/
inductive EntitlementUpdateResponse where
  | notFound
  | ok
  | dbError
  | serverError
deriving Repr, DecidableEq

/-- Outcome of one run of the entitlement-update handler. -/
structure EntitlementUpdateOutcome where
  response : EntitlementUpdateResponse
  db : DocumentStore
  txns : List TransactionRecord
deriving Repr, DecidableEq

/-- The PUT /documents/:docId/entitlement handler body (behind
authorize(admin)). One correlationId is drawn at the top of the handler
and used for whichever Transaction row the run creates. A schema failure
is caught by the generic catch (it is not a SequelizeDatabaseError), so it
yields 500 with no Transaction row; a missing document persists a failed
Transaction and yields 404; a failing save persists a failed Transaction
and yields 500; a successful save persists the updated document and one
completed Transaction. saveFails injects the SequelizeDatabaseError that
the source catches around document.save(). -/
def putDocumentEntitlement (db : DocumentStore) (docId : String)
    (body : JValue) (correlationId : String) (saveFails : Bool) :
    EntitlementUpdateOutcome :=
  match documentEntitlementSchema body with
  | none => { response := .serverError, db := db, txns := [] }
  | some entitlement =>
    match findByPk db docId with
    | none =>
        { response := .notFound, db := db,
          txns := [{ correlationId := correlationId, status := "failed" }] }
    | some doc =>
        if saveFails then
          { response := .dbError, db := db,
            txns := [{ correlationId := correlationId, status := "failed" }] }
        else
          { response := .ok,
            db := storeUpdate db docId { doc with entitlement := entitlement },
            txns := [{ correlationId := correlationId, status := "completed" }] }

/-- The raw docIds[] query parameter of GET /documents: absent, a single
string, or an array of strings. -/
inductive DocIdsParam where
  | missing
  | single (s : String)
  | many (ids : List String)

/-- Value of parseInt(process.env.MAX_LIMIT_DOC or 100) with the
environment variable unset: the default 100. -/
def MAX_LIMIT_DOC : Nat := 100

/-- Response of GET /documents. -/
inductive ListDocumentsResponse where
  | badParameter
  | overMaxLimit (maxLimit : Nat)
  | notFound
  | ok (documents : List (String × DocumentRecord))
deriving Repr, DecidableEq

/-- Outcome of one run of the GET /documents handler: the response and
whether DocumentModel.findAll was invoked. -/
structure ListDocumentsOutcome where
  response : ListDocumentsResponse
  queried : Bool
deriving Repr, DecidableEq

/-- The GET /documents handler: reject a missing or non-array docIds[]
parameter, reject more than MAX_LIMIT_DOC ids before any database access,
and otherwise query the store for the listed ids. -/
def getDocuments (db : DocumentStore) (docIds : DocIdsParam) :
    ListDocumentsOutcome :=
  match docIds with
  | .missing => { response := .badParameter, queried := false }
  | .single _ => { response := .badParameter, queried := false }
  | .many ids =>
      if ids.length > MAX_LIMIT_DOC then
        { response := .overMaxLimit MAX_LIMIT_DOC, queried := false }
      else
        let documents := db.filter (fun kv => ids.contains kv.1)
        if documents.length = 0 then
          { response := .notFound, queried := true }
        else
          { response := .ok documents, queried := true }

/-- Result of the required-properties validation stage. -/
inductive PropertiesValidation where
  | ok (p : DocumentProperties)
  | structuralError
  | missingPropertiesError (names : List String)
deriving Repr, DecidableEq

/-- The properties validation of the creation route on a raw property set,
as the route performs it: documentPropertiesSchema.parse followed by the
missingProperties filter against the given template. -/
def validateProperties (raw : JValue) (template : DocumentTemplate) :
    PropertiesValidation :=
  match documentPropertiesSchema raw with
  | none => .structuralError
  | some p =>
      let missing := missingProperties template p
      if missing.length > 0 then .missingPropertiesError missing else .ok p

/-- Spec-side reading of one clause of the claims: the named field of a raw
JSON object is present with a non-empty string value. -/
def rawKeyNonEmptyString (fields : List (String × JValue)) (name : String) : Bool :=
  match lookupField fields name with
  | some (.jstr s) => 0 < s.length
  | _ => false

/-- Spec-side reading of the single-traceable-element rule: no two of the
four traceable-element lists are simultaneously non-empty. -/
def atMostOneTraceable (a : DocumentAssociations) : Prop :=
  ¬ (isNonEmptyList a.locationGLNList = true ∧ isNonEmptyList a.productList = true) ∧
  ¬ (isNonEmptyList a.locationGLNList = true ∧ isNonEmptyList a.organizationList = true) ∧
  ¬ (isNonEmptyList a.locationGLNList = true ∧ isNonEmptyList a.epcList = true) ∧
  ¬ (isNonEmptyList a.productList = true ∧ isNonEmptyList a.organizationList = true) ∧
  ¬ (isNonEmptyList a.productList = true ∧ isNonEmptyList a.epcList = true) ∧
  ¬ (isNonEmptyList a.organizationList = true ∧ isNonEmptyList a.epcList = true)

/-- Whether a creation response is the 415 Unsupported Media Type one. -/
def isUnsupportedMediaResponse : PostResponse → Bool
  | .unsupportedMediaType _ => true
  | _ => false

/-! Concrete inputs used by counterexamples and witnesses. -/

/-- Raw properties of a creation request carrying two non-empty
traceable-element lists. -/
def multiTraceableJson : JValue :=
  .jobj [("documentType", .jstr "Generic Document"),
         ("documentTitle", .jstr "T"),
         ("locationGLNList", .jarr [.jstr "gln1"]),
         ("productList", .jarr [.jstr "p1"])]

/-- The parse of multiTraceableJson. -/
def multiTraceableProps : DocumentProperties :=
  { documentType := "Generic Document", documentTitle := "T",
    locationGLNList := some ["gln1"], productList := some ["p1"] }

/-- A creation request body whose associations carry two non-empty
traceable-element lists. -/
def multiTraceableBody : RequestBody :=
  { properties := .parsed multiTraceableJson, entitlement := .absent }

/-- Raw association fields linking one location and one event. -/
def singleTraceableFields : List (String × JValue) :=
  [("locationGLNList", .jarr [.jstr "gln1"]),
   ("eventIDList", .jarr [.jstr "ev1"])]

/-- The association set parsed from singleTraceableFields. -/
def singleTraceableAssoc : DocumentAssociations :=
  { locationGLNList := some ["gln1"], eventIDList := some ["ev1"] }

/-- A GAA BAP Certificate submission carrying every required property name
as a key with a non-empty string value, next to the two schema-required
fields. -/
def gaaFullFields : List (String × JValue) :=
  [("documentType", .jstr "GAA BAP Certificate"),
   ("documentTitle", .jstr "X"),
   ("certificateNumber", .jstr "C-1"),
   ("facility", .jstr "F-1"),
   ("issuer", .jstr "I-1"),
   ("validFrom", .jstr "2024-01-01"),
   ("validTo", .jstr "2025-01-01"),
   ("auditDate", .jstr "2024-06-01")]

/-- The scenario-D submission: only documentType and documentTitle. -/
def gaaMinimalJson : JValue :=
  .jobj [("documentType", .jstr "GAA BAP Certificate"),
         ("documentTitle", .jstr "X")]

/-- A persisted private document owned by owner-org that no other
organization is entitled to. -/
def privateDoc : DocumentRecord :=
  { type := "Generic Certificate",
    properties := { documentType := "Generic Certificate", documentTitle := "Cert" },
    contentFile := some { mimetype := "application/pdf" },
    associations := {},
    entitlement := { mode := "private" },
    version := 1,
    createdBy := "owner-user", organizationId := "owner-org" }

/-- A store holding privateDoc under id doc-1. -/
def exampleStore : DocumentStore := [("doc-1", privateDoc)]

/-- A Generic Certificate submission (schema-valid properties, entitlement
absent) to which a zip file is attached. -/
def zipSubmissionBody : RequestBody :=
  { properties := .parsed (.jobj [("documentType", .jstr "Generic Certificate"),
                                  ("documentTitle", .jstr "X")]),
    entitlement := .absent }

/-- The zip upload of scenario E. -/
def zipFile : UploadedFile := { mimetype := "application/zip" }

/-- The parse of gaaMinimalJson. -/
def gaaMinimalProps : DocumentProperties :=
  { documentType := "GAA BAP Certificate", documentTitle := "X" }

/-- An admin user, as the authorize middleware would see one. -/
def exampleAdmin : AuthUser :=
  { id := "admin-id", organizationId := "admin-org", role := "admin" }

/-! Supporting lemmas. -/

/-- Every successful template lookup yields one of the three shipped
templates. -/
theorem lookupTemplate_eq {s : String} {t : DocumentTemplate}
    (h : lookupTemplate s = some t) :
    t = genericDocumentTemplate ∨ t = genericCertificateTemplate ∨
      t = gaaBapCertificateTemplate := by
  unfold lookupTemplate at h
  rcases Option.map_eq_some'.mp h with ⟨kv, hfind, hkv⟩
  have hmem := List.mem_of_find?_eq_some hfind
  subst hkv
  simp [documentTemplates] at hmem
  rcases hmem with h1 | h2 | h3
  · exact Or.inl (by rw [h1])
  · exact Or.inr (Or.inl (by rw [h2]))
  · exact Or.inr (Or.inr (by rw [h3]))

/-- No required property of any shipped template is a field kept by
documentPropertiesSchema, so for every parsed property set the whole
requiredProperties list is reported missing. -/
theorem missingProperties_of_lookup {s : String} {t : DocumentTemplate}
    (h : lookupTemplate s = some t) (p : DocumentProperties) :
    missingProperties t p = t.requiredProperties ∧ 0 < t.requiredProperties.length := by
  rcases lookupTemplate_eq h with rfl | rfl | rfl
  · exact ⟨rfl, by decide⟩
  · exact ⟨rfl, by decide⟩
  · exact ⟨rfl, by decide⟩

/-- The creation handler persists no Document row on any input: every run
fails a validation stage before reaching DocumentModel.create. -/
theorem postDocuments_docs_nil (body : RequestBody) (f : Option UploadedFile)
    (txnId : String) : (postDocuments body f txnId).docs = [] := by
  cases hbp : body.properties with
  | absent => simp [postDocuments, hbp]
  | malformed => simp [postDocuments, hbp]
  | parsed pj =>
    cases hps : documentPropertiesSchema pj with
    | none => simp [postDocuments, hbp, hps]
    | some p =>
      cases hlk : lookupTemplate p.documentType with
      | none => simp [postDocuments, hbp, hps, hlk]
      | some t =>
        have hm := missingProperties_of_lookup hlk p
        simp [postDocuments, hbp, hps, hlk, hm.1, hm.2]

/-- When the properties field parses and passes the schema, the creation
handler answers with a 400 validation error. -/
theorem postDocuments_badRequest_of_parsed (body : RequestBody)
    (f : Option UploadedFile) (txnId : String) (pj : JValue) (p : DocumentProperties)
    (hbp : body.properties = RawField.parsed pj)
    (hps : documentPropertiesSchema pj = some p) :
    ∃ info, (postDocuments body f txnId).response = PostResponse.badRequest info := by
  cases hlk : lookupTemplate p.documentType with
  | none =>
      exact ⟨BadRequest.invalidDocumentType, by simp [postDocuments, hbp, hps, hlk]⟩
  | some t =>
      have hm := missingProperties_of_lookup hlk p
      exact ⟨BadRequest.missingRequiredProperties t.requiredProperties,
        by simp [postDocuments, hbp, hps, hlk, hm.1, hm.2]⟩

/-- The 415 branch of the creation handler is unreachable: the
required-properties stage fails first on every input. -/
theorem postDocuments_never_415 (body : RequestBody) (f : Option UploadedFile)
    (txnId : String) :
    isUnsupportedMediaResponse (postDocuments body f txnId).response = false := by
  cases hbp : body.properties with
  | absent => simp [postDocuments, hbp, isUnsupportedMediaResponse]
  | malformed => simp [postDocuments, hbp, isUnsupportedMediaResponse]
  | parsed pj =>
    cases hps : documentPropertiesSchema pj with
    | none => simp [postDocuments, hbp, hps, isUnsupportedMediaResponse]
    | some p =>
      cases hlk : lookupTemplate p.documentType with
      | none => simp [postDocuments, hbp, hps, hlk, isUnsupportedMediaResponse]
      | some t =>
        have hm := missingProperties_of_lookup hlk p
        simp [postDocuments, hbp, hps, hlk, hm.1, hm.2, isUnsupportedMediaResponse]

/-- The creation handler creates at most one Transaction row per run and
only in a terminal state. -/
theorem postDocuments_txns (body : RequestBody) (f : Option UploadedFile)
    (txnId : String) :
    (postDocuments body f txnId).txns.length ≤ 1 ∧
    ∀ t ∈ (postDocuments body f txnId).txns,
      t.status = "completed" ∨ t.status = "failed" := by
  cases hbp : body.properties with
  | absent => simp [postDocuments, hbp]
  | malformed => simp [postDocuments, hbp]
  | parsed pj =>
    cases hps : documentPropertiesSchema pj with
    | none => simp [postDocuments, hbp, hps]
    | some p =>
      cases hlk : lookupTemplate p.documentType with
      | none => simp [postDocuments, hbp, hps, hlk]
      | some t =>
        have hm := missingProperties_of_lookup hlk p
        simp [postDocuments, hbp, hps, hlk, hm.1, hm.2]

/-- The refine predicate holds exactly when no two traceable-element
lists are simultaneously non-empty. -/
theorem refineSingleTraceable_iff (a : DocumentAssociations) :
    refineSingleTraceable a = true ↔ atMostOneTraceable a := by
  unfold refineSingleTraceable traceableElementsCount atMostOneTraceable
  cases h1 : isNonEmptyList a.locationGLNList <;>
  cases h2 : isNonEmptyList a.productList <;>
  cases h3 : isNonEmptyList a.organizationList <;>
  cases h4 : isNonEmptyList a.epcList <;>
    simp [List.filter, h1, h2, h3, h4]

/-- Looking up the updated id after storeUpdate yields the replacement
row exactly when the id was present. -/
theorem findByPk_storeUpdate (db : DocumentStore) (docId : String) (d : DocumentRecord) :
    findByPk (storeUpdate db docId d) docId = (findByPk db docId).map (fun _ => d) := by
  induction db with
  | nil => rfl
  | cons kv rest ih =>
      by_cases h : kv.1 == docId
      · simp [storeUpdate, findByPk, List.find?, h]
      · simp only [storeUpdate, List.map_cons] at *
        simp only [findByPk, List.find?] at *
        rw [if_neg (by simpa using h)]
        simp only [h]
        exact ih

/-- Every successfully authenticated request carries the same hard-coded
user object, whatever the token was. -/
theorem authenticate_ok_fixed {h : Option String} {u : AuthUser}
    (hok : authenticate h = Except.ok u) :
    u = { id := "user-id", organizationId := "org-id", role := "user" } := by
  cases h with
  | none => exact absurd hok (by simp [authenticate])
  | some s =>
      cases hg : (jsSplitSpace s).get? 1 with
      | none => rw [authenticate] at hok; rw [hg] at hok; exact absurd hok (by simp)
      | some token =>
          rw [authenticate] at hok; rw [hg] at hok
          dsimp only at hok
          by_cases ht : token = ""
          · rw [if_pos ht] at hok; exact absurd hok (by simp)
          · rw [if_neg ht] at hok
            exact (Except.ok.inj hok).symm

/-- The filter reporting missing properties is empty exactly when every
required name is a key of the parsed property set. -/
theorem missingProperties_nil_iff (t : DocumentTemplate) (p : DocumentProperties) :
    missingProperties t p = [] ↔
      ∀ name ∈ t.requiredProperties, propertyHasKey p name = true := by
  unfold missingProperties
  rw [List.filter_eq_nil_iff]
  simp

/-! Claim theorems. -/

/-- C1: every document-creation submission whose associations carry more
than one non-empty traceable-element list is rejected with a validation
error (HTTP 400) and no Document row is persisted for it. -/
theorem multiTraceable_creation_rejected
    (body : RequestBody) (f : Option UploadedFile) (txnId : String)
    (pj : JValue) (p : DocumentProperties)
    (hbp : body.properties = RawField.parsed pj)
    (hps : documentPropertiesSchema pj = some p)
    (_hmulti : 2 ≤ traceableElementsCount (associationsOfProperties p)) :
    (∃ info, (postDocuments body f txnId).response = PostResponse.badRequest info) ∧
    (postDocuments body f txnId).docs = [] :=
  ⟨postDocuments_badRequest_of_parsed body f txnId pj p hbp hps,
   postDocuments_docs_nil body f txnId⟩

/-- Witness for C1 at a submission with non-empty locationGLNList and
productList. -/
theorem multiTraceable_creation_rejected_witness :
    (∃ info, (postDocuments multiTraceableBody none "txn-1").response =
      PostResponse.badRequest info) ∧
    (postDocuments multiTraceableBody none "txn-1").docs = [] :=
  multiTraceable_creation_rejected multiTraceableBody none "txn-1"
    multiTraceableJson multiTraceableProps rfl (by decide) (by decide)

/-- C2: on any association set whose six fields are each absent or a list
of strings (that is, any input the shape stage parses), the association
schema succeeds exactly when at most one of the four traceable-element
lists is present and non-empty, and the refine outcome does not depend on
eventIDList or transactionIDList. -/
theorem documentAssociationsSchema_single_traceable
    (fields : List (String × JValue)) (a : DocumentAssociations)
    (hshape : parseAssociationsShape (JValue.jobj fields) = some a) :
    ((documentAssociationsSchema (JValue.jobj fields)).isSome ↔ atMostOneTraceable a) ∧
    (∀ ev tx, refineSingleTraceable
        { a with eventIDList := ev, transactionIDList := tx } = refineSingleTraceable a) := by
  constructor
  · have hbool : (documentAssociationsSchema (JValue.jobj fields)).isSome =
        refineSingleTraceable a := by
      unfold documentAssociationsSchema
      rw [hshape]
      by_cases hr : refineSingleTraceable a <;> simp [hr]
    rw [hbool]
    exact refineSingleTraceable_iff a
  · intro ev tx
    rfl

/-- Witness for C2 at an association set with one non-empty
traceable-element list and a non-empty eventIDList. -/
theorem documentAssociationsSchema_single_traceable_witness :
    ((documentAssociationsSchema (JValue.jobj singleTraceableFields)).isSome ↔
      atMostOneTraceable singleTraceableAssoc) ∧
    (∀ ev tx, refineSingleTraceable
        { singleTraceableAssoc with eventIDList := ev, transactionIDList := tx } =
      refineSingleTraceable singleTraceableAssoc) :=
  documentAssociationsSchema_single_traceable singleTraceableFields
    singleTraceableAssoc (by decide)

/-- C3 (code bug): a private document owned by owner-org, with no
entitled organizations, is nevertheless served by the content-read route;
the handler consults no requester identity at all, so the read by the
foreign organization other-org is not refused. -/
theorem private_document_content_served :
    privateDoc.entitlement.mode = "private" ∧
    privateDoc.entitlement.entitledOrgIds = none ∧
    privateDoc.organizationId = "owner-org" ∧
    ("other-org" == privateDoc.organizationId) = false ∧
    getDocumentContent exampleStore "doc-1" = ContentResponse.ok privateDoc.contentFile := by
  decide

/-- C4 counterexample: a GAA BAP Certificate submission carrying every
required property name as a key with a non-empty string value is still
rejected, with all six names reported missing, because the schema parse
keeps only its twelve known fields. -/
theorem validateProperties_fails_with_required_present :
    gaaBapCertificateTemplate.requiredProperties.all
      (fun name => rawKeyNonEmptyString gaaFullFields name) = true ∧
    validateProperties (JValue.jobj gaaFullFields) gaaBapCertificateTemplate =
      PropertiesValidation.missingPropertiesError
        ["certificateNumber", "facility", "issuer", "validFrom", "validTo",
         "auditDate"] := by
  decide

/-- C4 amended: validateProperties succeeds exactly when the schema parse
succeeds and every required name is a key of the parsed (stripped)
property object; emptiness of values is never checked; on a
missing-properties failure the error lists exactly the required names
that are not keys of the parsed object. -/
theorem validateProperties_presence_only (raw : JValue) (t : DocumentTemplate) :
    (∀ p, validateProperties raw t = PropertiesValidation.ok p ↔
      (documentPropertiesSchema raw = some p ∧
        ∀ name ∈ t.requiredProperties, propertyHasKey p name = true)) ∧
    (∀ p, documentPropertiesSchema raw = some p →
      missingProperties t p ≠ [] →
      validateProperties raw t = PropertiesValidation.missingPropertiesError
        (t.requiredProperties.filter (fun name => ! propertyHasKey p name))) := by
  constructor
  · intro p
    constructor
    · intro h
      unfold validateProperties at h
      cases hps : documentPropertiesSchema raw with
      | none => rw [hps] at h; cases h
      | some q =>
          rw [hps] at h
          dsimp only at h
          by_cases hm : (missingProperties t q).length > 0
          · rw [if_pos hm] at h; cases h
          · rw [if_neg hm] at h
            have hnil : missingProperties t q = [] := by
              cases hq : missingProperties t q with
              | nil => rfl
              | cons a l => rw [hq] at hm; exact absurd (by simp) hm
            injection h with hqp
            cases hqp
            exact ⟨rfl, (missingProperties_nil_iff t p).mp hnil⟩
    · rintro ⟨hps, hall⟩
      unfold validateProperties
      rw [hps]
      dsimp only
      have hnil : missingProperties t p = [] := (missingProperties_nil_iff t p).mpr hall
      rw [hnil]
      simp
  · intro p hps hne
    unfold validateProperties
    rw [hps]
    dsimp only
    rw [if_pos (List.length_pos.mpr hne)]
    rfl

/-- Witness for the amended C4 at the scenario-D submission: the error
lists all six missing names. -/
theorem validateProperties_presence_only_witness :
    validateProperties gaaMinimalJson gaaBapCertificateTemplate =
      PropertiesValidation.missingPropertiesError
        (gaaBapCertificateTemplate.requiredProperties.filter
          (fun name => ! propertyHasKey gaaMinimalProps name)) :=
  (validateProperties_presence_only gaaMinimalJson gaaBapCertificateTemplate).2
    gaaMinimalProps (by decide) (by decide)

/-- C5 counterexample: a successful entitlement update creates exactly
one Transaction row, directly in the terminal state completed; no row
with status pending is ever created during the operation. -/
theorem entitlement_update_no_pending_transaction :
    (putDocumentEntitlement exampleStore "doc-1"
        (JValue.jobj [("mode", JValue.jstr "linked")]) "corr-1" false).response =
      EntitlementUpdateResponse.ok ∧
    (putDocumentEntitlement exampleStore "doc-1"
        (JValue.jobj [("mode", JValue.jstr "linked")]) "corr-1" false).txns =
      [{ correlationId := "corr-1", status := "completed" }] ∧
    (¬ ∃ t ∈ (putDocumentEntitlement exampleStore "doc-1"
        (JValue.jobj [("mode", JValue.jstr "linked")]) "corr-1" false).txns,
      t.status = "pending") := by
  decide

/-- C5 amended: each run of the modeled asynchronous write operations
(entitlement update and document creation) creates at most one
Transaction row, and only in a terminal state (completed or failed);
none is created with status pending. -/
theorem async_transactions_terminal
    (db : DocumentStore) (docId : String) (bodyJson : JValue) (cid : String)
    (saveFails : Bool) (body : RequestBody) (f : Option UploadedFile)
    (txnId : String) :
    ((putDocumentEntitlement db docId bodyJson cid saveFails).txns.length ≤ 1 ∧
      ∀ t ∈ (putDocumentEntitlement db docId bodyJson cid saveFails).txns,
        t.status = "completed" ∨ t.status = "failed") ∧
    ((postDocuments body f txnId).txns.length ≤ 1 ∧
      ∀ t ∈ (postDocuments body f txnId).txns,
        t.status = "completed" ∨ t.status = "failed") := by
  constructor
  · unfold putDocumentEntitlement
    cases hps : documentEntitlementSchema bodyJson with
    | none => simp
    | some e =>
        cases hfd : findByPk db docId with
        | none => simp
        | some doc => cases saveFails <;> simp
  · exact postDocuments_txns body f txnId

/-- Witness for the amended C5: the completed row of a concrete
successful entitlement update is in a terminal state. -/
theorem async_transactions_terminal_witness :
    ({ correlationId := "corr-1", status := "completed" } : TransactionRecord).status =
        "completed" ∨
      ({ correlationId := "corr-1", status := "completed" } : TransactionRecord).status =
        "failed" :=
  (async_transactions_terminal exampleStore "doc-1"
      (JValue.jobj [("mode", JValue.jstr "linked")]) "corr-1" false
      multiTraceableBody none "txn-1").1.2
    { correlationId := "corr-1", status := "completed" } (by decide)

/-- C6 counterexample: a successful content update leaves version exactly
where it was (1), not strictly larger. -/
theorem content_update_version_not_incremented :
    (putDocumentContent exampleStore "doc-1" (some { mimetype := "application/pdf" })).1 =
      UpdateContentResponse.ok ∧
    (findByPk exampleStore "doc-1").map (fun d => d.version) = some 1 ∧
    (findByPk (putDocumentContent exampleStore "doc-1"
        (some { mimetype := "application/pdf" })).2 "doc-1").map (fun d => d.version) =
      some 1 := by
  decide

/-- C6 amended: version takes the column default 1 on the row handed to
DocumentModel.create, and the content-update route never changes the
version of any document. -/
theorem version_default_and_unchanged
    (p : DocumentProperties) (cf : Option UploadedFile) (e : DocumentEntitlement)
    (db : DocumentStore) (docId : String) (file : Option UploadedFile) :
    (mkDocument p cf e).version = 1 ∧
    (findByPk (putDocumentContent db docId file).2 docId).map (fun d => d.version) =
      (findByPk db docId).map (fun d => d.version) := by
  refine ⟨rfl, ?_⟩
  cases file with
  | none => rfl
  | some f =>
      cases hfd : findByPk db docId with
      | none => simp [putDocumentContent, hfd]
      | some doc =>
          simp [putDocumentContent, hfd, findByPk_storeUpdate]

/-- C7 (code bug): the scenario-E submission, a zip file attached to a
Generic Certificate request, is rejected before persistence, but with a
400 missing-required-properties error instead of 415, even though the
zip MIME type is indeed outside the allow-list of the template. -/
theorem zip_submission_rejected_400_not_415 :
    genericCertificateTemplate.allowedFileTypes.contains "application/zip" = false ∧
    (postDocuments zipSubmissionBody (some zipFile) "txn-z").response =
      PostResponse.badRequest (BadRequest.missingRequiredProperties
        ["title", "issuer", "validFrom", "validTo"]) ∧
    isUnsupportedMediaResponse
      (postDocuments zipSubmissionBody (some zipFile) "txn-z").response = false ∧
    (postDocuments zipSubmissionBody (some zipFile) "txn-z").docs = [] := by
  decide

/-- C8: the creation route treats any two successfully authenticated
requests identically whatever their tokens were, and every Document row
it would persist carries the hard-coded createdBy user-id and
organizationId org-id. -/
theorem created_owner_independent_of_token
    (h1 h2 : Option String) (body : RequestBody) (f : Option UploadedFile)
    (txnId : String) (u1 u2 : AuthUser)
    (ha1 : authenticate h1 = Except.ok u1) (ha2 : authenticate h2 = Except.ok u2) :
    postDocumentsRoute h1 body f txnId = postDocumentsRoute h2 body f txnId ∧
    ∀ d ∈ (postDocumentsRoute h1 body f txnId).docs,
      d.createdBy = "user-id" ∧ d.organizationId = "org-id" := by
  have e1 := authenticate_ok_fixed ha1
  have e2 := authenticate_ok_fixed ha2
  subst e1; subst e2
  constructor
  · unfold postDocumentsRoute
    rw [ha1, ha2]
  · intro d hd
    unfold postDocumentsRoute at hd
    rw [ha1] at hd
    dsimp only at hd
    have hauth : authorize ["admin", "user"]
        { id := "user-id", organizationId := "org-id", role := "user" } =
        AuthzResult.proceed := by decide
    rw [hauth] at hd
    dsimp only at hd
    rw [postDocuments_docs_nil] at hd
    cases hd

/-- Witness for C8 at two requests carrying different bearer tokens. -/
theorem created_owner_independent_of_token_witness :
    postDocumentsRoute (some "Bearer token-a") multiTraceableBody none "txn-1" =
      postDocumentsRoute (some "Bearer token-b") multiTraceableBody none "txn-1" ∧
    ∀ d ∈ (postDocumentsRoute (some "Bearer token-a") multiTraceableBody none
        "txn-1").docs,
      d.createdBy = "user-id" ∧ d.organizationId = "org-id" :=
  created_owner_independent_of_token (some "Bearer token-a") (some "Bearer token-b")
    multiTraceableBody none "txn-1"
    { id := "user-id", organizationId := "org-id", role := "user" }
    { id := "user-id", organizationId := "org-id", role := "user" } rfl rfl

/-- C9: authorize(roles) denies an authenticated request exactly when the
role of the requester is not in the roles list, and with the empty roles
list it denies every requester, the admin included. -/
theorem authorize_denies_iff (roles : List String) (user : AuthUser) :
    (authorize roles user = AuthzResult.accessDenied ↔ user.role ∉ roles) ∧
    authorize [] user = AuthzResult.accessDenied ∧
    authorize [] exampleAdmin = AuthzResult.accessDenied := by
  refine ⟨?_, rfl, rfl⟩
  unfold authorize
  by_cases h : roles.contains user.role
  · rw [if_pos h]
    rw [List.elem_iff] at h
    constructor
    · intro hc; cases hc
    · intro hn; exact absurd h hn
  · rw [if_neg ?_]
    · constructor
      · intro _
        intro hmem
        exact h (List.elem_iff.mpr hmem)
      · intro _; rfl
    · exact h

/-- C10: a GET /documents request with more than MAX_LIMIT_DOC (default
100) ids is answered 400 without touching the database, while one with at
most MAX_LIMIT_DOC ids reaches the findAll query. -/
theorem getDocuments_max_limit (db : DocumentStore) (ids : List String) :
    (MAX_LIMIT_DOC < ids.length →
      getDocuments db (DocIdsParam.many ids) =
        { response := ListDocumentsResponse.overMaxLimit MAX_LIMIT_DOC,
          queried := false }) ∧
    (ids.length ≤ MAX_LIMIT_DOC →
      (getDocuments db (DocIdsParam.many ids)).queried = true) := by
  constructor
  · intro h
    simp [getDocuments, h]
  · intro h
    have hn : ¬ ids.length > MAX_LIMIT_DOC := not_lt.mpr h
    simp only [getDocuments]
    rw [if_neg hn]
    by_cases hz : (List.filter (fun kv => ids.contains kv.1) db).length = 0
    · rw [if_pos hz]
    · rw [if_neg hz]

/-- Witness for C10 at 101 and at 1 requested ids. -/
theorem getDocuments_max_limit_witness :
    getDocuments [] (DocIdsParam.many (List.replicate 101 "x")) =
      { response := ListDocumentsResponse.overMaxLimit MAX_LIMIT_DOC,
        queried := false } ∧
    (getDocuments [] (DocIdsParam.many ["a"])).queried = true :=
  ⟨(getDocuments_max_limit [] (List.replicate 101 "x")).1 (by decide),
   (getDocuments_max_limit [] ["a"]).2 (by decide)⟩

end KMF
